import Mathlib

/-!
Shallow embedding of the go-nebulas blockchain core under verification:
`core/transaction.go` (transaction construction, protobuf conversion,
canonical hashing, signing, the execution pipeline `VerifyExecution`,
`SimulateExecution`, `CheckContract`, `CheckTransaction`) and
`net/dispatcher.go` (typed message dispatch with per-type duplicate
filtering).

Modelling conventions:
* `util.Uint128` is modelled as `Nat` together with checked operations that
  fail with `overflow`/`underflow` exactly when the result leaves
  `[0, 2^128)`, mirroring the checked arithmetic of the Go `Uint128`.
* World-state I/O errors (storage failures) are outside the model: the
  world-state operations that can only fail with an I/O error in Go are
  total here.  All claims are settled under the "no world-state I/O error"
  hypothesis they carry.
* The SHA3-256 hasher and the protobuf encoder of the `Data` message are
  external collaborators (pure functions per the specification); the
  functions that use them take them as explicit arguments.
* JSON (un)marshalling of `TransactionEvent` is modelled as the identity on
  the structured event payload.
-/

namespace Nebulas

/-- Error values surfaced by the embedded code paths, one constructor per
Go error variable that the modelled functions can return. -/
inductive CoreError where
  | insufficientBalance
  | outOfGasLimit
  | invalidTxPayloadType
  | zeroGasPrice
  | zeroGasLimit
  | invalidArgument
  | txDataPayLoadOutOfMaxLength
  | smallTransactionNonce
  | largeTransactionNonce
  | nilArgument
  | invalidProtoToTransaction
  | invalidTransactionData
  | contractCheckFailed
  | accountNotFound
  | overflow
  | underflow
  | payloadError (code : Nat)
  | signatureError (code : Nat)
deriving DecidableEq, Repr

/-- Model of `2^128`, the exclusive upper bound of `util.Uint128`. -/
def U128LIMIT : Nat := 2 ^ 128

/-- Checked `Uint128.Add`: fails with overflow when the sum leaves the range. -/
def u128add (a b : Nat) : Except CoreError Nat :=
  if a + b < U128LIMIT then .ok (a + b) else .error .overflow

/-- Checked `Uint128.Sub`: fails with underflow when `b > a`. -/
def u128sub (a b : Nat) : Except CoreError Nat :=
  if b ≤ a then .ok (a - b) else .error .underflow

/-- Checked `Uint128.Mul`: fails with overflow when the product leaves the range. -/
def u128mul (a b : Nat) : Except CoreError Nat :=
  if a * b < U128LIMIT then .ok (a * b) else .error .overflow

/-- Big-endian byte string of fixed width `k` (most significant byte first). -/
def natToBytesBE : Nat → Nat → List Nat
  | 0, _ => []
  | k + 1, n => natToBytesBE k (n / 256) ++ [n % 256]

/-- Value of a big-endian byte string. -/
def bytesToNatBE (bs : List Nat) : Nat := bs.foldl (fun a b => a * 256 + b) 0

/-- Model of `Uint128.ToFixedSizeByteSlice`: 16-byte big-endian serialization; fails
when the value is not a valid `Uint128`. -/
def toFixedSizeByteSlice (n : Nat) : Except CoreError (List Nat) :=
  if n < U128LIMIT then .ok (natToBytesBE 16 n) else .error .overflow

/-- Model of `util.NewUint128FromFixedSizeByteSlice`: requires exactly 16 bytes. -/
def NewUint128FromFixedSizeByteSlice (bs : List Nat) : Except CoreError Nat :=
  if bs.length = 16 then .ok (bytesToNatBE bs) else .error .invalidArgument

theorem natToBytesBE_length (k n : Nat) : (natToBytesBE k n).length = k := by
  induction k generalizing n with
  | zero => rfl
  | succ k ih => simp [natToBytesBE, ih]

theorem bytesToNatBE_append_singleton (bs : List Nat) (b : Nat) :
    bytesToNatBE (bs ++ [b]) = 256 * bytesToNatBE bs + b := by
  simp [bytesToNatBE, List.foldl_append, Nat.mul_comm]

theorem mod_mul_succ_base (n K : Nat) :
    n % (256 * K) = 256 * (n / 256 % K) + n % 256 := by
  rcases Nat.eq_zero_or_pos K with hK | hK
  · subst hK
    simp only [Nat.mul_zero, Nat.mod_zero]
    omega
  · conv_lhs => rw [← Nat.div_add_mod n 256]
    rw [Nat.add_mod, Nat.mul_mod_mul_left, Nat.mod_eq_of_lt (a := n % 256) (by
      have := Nat.mod_lt n (y := 256) (by omega)
      calc n % 256 < 256 := this
        _ ≤ 256 * K := by nlinarith)]
    rw [Nat.mod_eq_of_lt]
    have h1 : n / 256 % K < K := Nat.mod_lt _ hK
    have h2 : n % 256 < 256 := Nat.mod_lt n (by omega)
    nlinarith

theorem bytesToNatBE_natToBytesBE (k n : Nat) :
    bytesToNatBE (natToBytesBE k n) = n % 256 ^ k := by
  induction k generalizing n with
  | zero => simp [natToBytesBE, bytesToNatBE, Nat.mod_one]
  | succ k ih =>
      rw [natToBytesBE, bytesToNatBE_append_singleton, ih,
        Nat.pow_succ]
      rw [(by ring : 256 ^ k * 256 = 256 * 256 ^ k), mod_mul_succ_base]

theorem bytesToNatBE_natToBytesBE_16 (n : Nat) (h : n < U128LIMIT) :
    bytesToNatBE (natToBytesBE 16 n) = n := by
  rw [bytesToNatBE_natToBytesBE]
  exact Nat.mod_eq_of_lt (by simpa [U128LIMIT] using h)

/-- Transaction-level constants of `core/transaction.go`. -/
def TxHashByteLength : Nat := 32

def TransactionMaxGasPrice : Nat := 50000000000

def TransactionMaxGas : Nat := 50000000000

def TransactionGasPrice : Nat := 1000000

def MinGasCountPerTransaction : Nat := 20000

def GasCountPerByte : Nat := 1

def MaxDataPayLoadLength : Nat := 131072

/-- Modelled from the spec: `core/address.go` is not part of the sources
under verification.  "Address. A 24-byte identifier with a 1-byte type tag";
an address is its byte string. -/
structure Address where
  address : List Nat
deriving DecidableEq, Repr

/-- Modelled from the spec: the byte length of a serialized address. -/
def AddressLength : Nat := 24

/-- Modelled from the spec: `AddressParseFromBytes` accepts exactly the
24-byte identifiers. -/
def AddressParseFromBytes (bs : List Nat) : Except CoreError Address :=
  if bs.length = AddressLength then .ok ⟨bs⟩ else .error .invalidArgument

/-- Model of `corepb.Data`: payload type tag and raw payload bytes. -/
structure Data where
  type : String
  payload : List Nat
deriving DecidableEq, Repr

/-- Domain transaction (`core.Transaction`).  `value`, `gasPrice` and
`gasLimit` are `Uint128` values, `alg` is the `keystore.Algorithm` (a
`uint8` in Go). -/
structure Transaction where
  hash : List Nat
  from_ : Address
  to_ : Address
  value : Nat
  nonce : Nat
  timestamp : Int
  data : Data
  chainID : Nat
  gasPrice : Nat
  gasLimit : Nat
  alg : Nat
  sign : List Nat
deriving DecidableEq, Repr

/-- Wire transaction (`corepb.Transaction`): `value`, `gasPrice`, `gasLimit`
are 16-byte big-endian slices, `data` is a nilable message pointer. -/
structure PbTransaction where
  hash : List Nat
  from_ : List Nat
  to_ : List Nat
  value : List Nat
  nonce : Nat
  timestamp : Int
  data : Option Data
  chainId : Nat
  gasPrice : List Nat
  gasLimit : List Nat
  alg : Nat
  sign : List Nat
deriving DecidableEq, Repr

/-- Model of `Transaction.ToProto`. -/
def ToProto (tx : Transaction) : Except CoreError PbTransaction :=
  match toFixedSizeByteSlice tx.value with
  | .error e => .error e
  | .ok value =>
  match toFixedSizeByteSlice tx.gasPrice with
  | .error e => .error e
  | .ok gasPrice =>
  match toFixedSizeByteSlice tx.gasLimit with
  | .error e => .error e
  | .ok gasLimit =>
    .ok { hash := tx.hash, from_ := tx.from_.address, to_ := tx.to_.address,
          value := value, nonce := tx.nonce, timestamp := tx.timestamp,
          data := some tx.data, chainId := tx.chainID,
          gasPrice := gasPrice, gasLimit := gasLimit,
          alg := tx.alg, sign := tx.sign }

/-- Model of `Transaction.FromProto`.  The argument is the (nilable) protobuf
message; `keystore.Algorithm(msg.Alg)` truncates `uint32` to `uint8`. -/
def FromProto (msg : Option PbTransaction) : Except CoreError Transaction :=
  match msg with
  | none => .error .invalidProtoToTransaction
  | some m =>
  match AddressParseFromBytes m.from_ with
  | .error e => .error e
  | .ok from_ =>
  match AddressParseFromBytes m.to_ with
  | .error e => .error e
  | .ok to_ =>
  match NewUint128FromFixedSizeByteSlice m.value with
  | .error e => .error e
  | .ok value =>
  match m.data with
  | none => .error .invalidTransactionData
  | some d =>
    if d.payload.length > MaxDataPayLoadLength then
      .error .txDataPayLoadOutOfMaxLength
    else
      match NewUint128FromFixedSizeByteSlice m.gasPrice with
      | .error e => .error e
      | .ok gasPrice =>
      match NewUint128FromFixedSizeByteSlice m.gasLimit with
      | .error e => .error e
      | .ok gasLimit =>
        .ok { hash := m.hash, from_ := from_, to_ := to_, value := value,
              nonce := m.nonce, timestamp := m.timestamp, data := d,
              chainID := m.chainId, gasPrice := gasPrice,
              gasLimit := gasLimit, alg := m.alg % 256, sign := m.sign }

/-- Model of `core.NewTransaction`.  Nilable pointer arguments are `Option`s;
`timestamp` is set from the caller-supplied current time (`time.Now`). -/
def NewTransaction (chainID : Nat) (from_ to_ : Option Address)
    (value : Option Nat) (nonce : Nat) (payloadType : String)
    (payload : List Nat) (gasPrice gasLimit : Option Nat) (now : Int) :
    Except CoreError Transaction :=
  match gasPrice with
  | none => .error .zeroGasPrice
  | some gp =>
    if gp = 0 then .error .zeroGasPrice
    else
      match gasLimit with
      | none => .error .zeroGasLimit
      | some gl =>
        if gl = 0 then .error .zeroGasLimit
        else
          match from_, to_, value with
          | some f, some t, some v =>
            if payload.length > MaxDataPayLoadLength then
              .error .txDataPayLoadOutOfMaxLength
            else
              .ok { hash := [], from_ := f, to_ := t, value := v,
                    nonce := nonce, timestamp := now,
                    data := { type := payloadType, payload := payload },
                    chainID := chainID, gasPrice := gp, gasLimit := gl,
                    alg := 0, sign := [] }
          | _, _, _ => .error .invalidArgument

/-- Payload of the on-chain execution-result event (`core.TransactionEvent`);
JSON encoding is modelled as the identity. -/
structure TransactionEvent where
  hash : List Nat
  status : Nat
  gasUsed : Nat
  error : Option CoreError
deriving DecidableEq, Repr

/-- A world-state event (`state.Event`). -/
structure Event where
  topic : String
  data : TransactionEvent
deriving DecidableEq, Repr

/-- Modelled from the spec: event status codes ("status 0 = success,
1 = failure"); the constants live outside the sources under verification. -/
def TxExecutionSuccess : Nat := 0

/-- Modelled from the spec: failure status of an execution-result event. -/
def TxExecutionFailed : Nat := 1

/-- Modelled from the spec: "Topic string for tx results:
`chain.transactionResult`". -/
def TopicTransactionExecutionResult : String := "chain.transactionResult"

/-- A world-state account: balance, nonce, and (for contract accounts) the
hash of the birth transaction; user accounts carry an empty birth place. -/
structure Account where
  balance : Nat
  nonce : Nat
  birthPlace : List Nat := []
deriving DecidableEq, Repr

/-- The mutable content of a world state: account store (keyed by address
bytes), recorded gas (address, gas cost in wei) and recorded events (keyed
by transaction hash). -/
structure WSCore where
  accounts : List (List Nat × Account)
  gasRecords : List (List Nat × Nat)
  events : List (List Nat × Event)
deriving DecidableEq, Repr

/-- A world state together with the checkpoint `Reset()` rolls back to
(the savepoint opened by the caller before the transaction ran). -/
structure WorldState where
  cur : WSCore
  saved : WSCore
deriving DecidableEq, Repr

/-- Association-list lookup by address bytes. -/
def lookupAcc (a : List Nat) (accs : List (List Nat × Account)) :
    Option Account :=
  (accs.find? (fun p => p.1 = a)).map (·.2)

/-- Association-list update/insert by address bytes. -/
def setAcc (a : List Nat) (acc : Account)
    (accs : List (List Nat × Account)) : List (List Nat × Account) :=
  match accs with
  | [] => [(a, acc)]
  | p :: rest => if p.1 = a then (a, acc) :: rest else p :: setAcc a acc rest

/-- Model of `WorldState.GetOrCreateUserAccount`: returns the stored account, creating
a fresh zero account when the address is unknown.  I/O errors are outside
the model. -/
def GetOrCreateUserAccount (addr : List Nat) (ws : WorldState) :
    Account × WorldState :=
  match lookupAcc addr ws.cur.accounts with
  | some acc => (acc, ws)
  | none =>
      let acc : Account := { balance := 0, nonce := 0 }
      (acc, { ws with cur := { ws.cur with accounts := setAcc addr acc ws.cur.accounts } })

/-- Model of `WorldState.GetContractAccount`: fails when the address is unknown. -/
def GetContractAccount (addr : List Nat) (ws : WorldState) :
    Except CoreError Account :=
  match lookupAcc addr ws.cur.accounts with
  | some acc => .ok acc
  | none => .error .accountNotFound

/-- Model of `Account.AddBalance` on the account stored at `addr`: checked `Uint128`
addition. -/
def AddBalance (addr : List Nat) (value : Nat) (ws : WorldState) :
    Except CoreError WorldState :=
  match lookupAcc addr ws.cur.accounts with
  | none => .error .accountNotFound
  | some acc =>
    match u128add acc.balance value with
    | .error e => .error e
    | .ok b =>
        .ok { ws with cur := { ws.cur with accounts := setAcc addr { acc with balance := b } ws.cur.accounts } }

/-- Model of `Account.SubBalance` on the account stored at `addr`: fails
(`ErrBalanceInsufficient`) when the balance is smaller than `value`. -/
def SubBalance (addr : List Nat) (value : Nat) (ws : WorldState) :
    Except CoreError WorldState :=
  match lookupAcc addr ws.cur.accounts with
  | none => .error .accountNotFound
  | some acc =>
    match u128sub acc.balance value with
    | .error e => .error e
    | .ok b =>
        .ok { ws with cur := { ws.cur with accounts := setAcc addr { acc with balance := b } ws.cur.accounts } }

/-- Model of `WorldState.RecordGas`. -/
def RecordGas (key : List Nat) (gasCost : Nat) (ws : WorldState) : WorldState :=
  { ws with cur := { ws.cur with gasRecords := ws.cur.gasRecords ++ [(key, gasCost)] } }

/-- Model of `WorldState.RecordEvent`. -/
def RecordEvent (txHash : List Nat) (e : Event) (ws : WorldState) : WorldState :=
  { ws with cur := { ws.cur with events := ws.cur.events ++ [(txHash, e)] } }

/-- Model of `WorldState.FetchEvents`: the events recorded under a hash, in order. -/
def FetchEvents (h : List Nat) (ws : WorldState) : List Event :=
  ws.cur.events.filterMap (fun p => if p.1 = h then some p.2 else none)

/-- Model of `WorldState.Reset`: roll back to the most recent checkpoint. -/
def Reset (ws : WorldState) : WorldState := { cur := ws.saved, saved := ws.saved }

/-- A parsed transaction payload (`core.TxPayload`): its base gas count and
its `Execute` function, which returns the execution gas, the result string,
an optional execution error, and the world state it leaves behind. -/
structure TxPayload where
  baseGasCount : Nat
  execute : Transaction → WorldState →
    Nat × String × Option CoreError × WorldState

/-- Invocation of `payload.Execute(tx, block, ws)` (the block argument is
opaque to the model). -/
def executePayload (payload : TxPayload) (tx : Transaction) (ws : WorldState) :
    Nat × String × Option CoreError × WorldState :=
  payload.execute tx ws

/-- The payload parsers (`LoadBinaryPayload`, `LoadDeployPayload`,
`LoadCallPayload` live outside the sources under verification; the virtual
machine is an external collaborator). -/
structure PayloadEnv where
  loadBinary : List Nat → Except CoreError TxPayload
  loadDeploy : List Nat → Except CoreError TxPayload
  loadCall : List Nat → Except CoreError TxPayload

/-- Model of `core.TxPayloadBinaryType`. -/
def TxPayloadBinaryType : String := "binary"

/-- Model of `core.TxPayloadDeployType`. -/
def TxPayloadDeployType : String := "deploy"

/-- Model of `core.TxPayloadCallType`. -/
def TxPayloadCallType : String := "call"

/-- Model of `Transaction.DataLen`. -/
def Transaction.DataLen (tx : Transaction) : Nat := tx.data.payload.length

/-- Model of `Transaction.LoadPayload`: dispatch on the payload type tag. -/
def LoadPayload (env : PayloadEnv) (tx : Transaction) :
    Except CoreError TxPayload :=
  if tx.data.type = TxPayloadBinaryType then env.loadBinary tx.data.payload
  else if tx.data.type = TxPayloadDeployType then env.loadDeploy tx.data.payload
  else if tx.data.type = TxPayloadCallType then env.loadCall tx.data.payload
  else .error .invalidTxPayloadType

/-- Model of `Transaction.GasCountOfTxBase`:
`MinGasCountPerTransaction + DataLen * GasCountPerByte` in checked
`Uint128` arithmetic. -/
def GasCountOfTxBase (tx : Transaction) : Except CoreError Nat :=
  if tx.DataLen > 0 then
    match u128mul tx.DataLen GasCountPerByte with
    | .error e => .error e
    | .ok dataGas => u128add MinGasCountPerTransaction dataGas
  else .ok MinGasCountPerTransaction

/-- Model of `Transaction.MinBalanceRequired`: `gasPrice * gasLimit + value` in
checked `Uint128` arithmetic. -/
def MinBalanceRequired (tx : Transaction) : Except CoreError Nat :=
  match u128mul tx.gasPrice tx.gasLimit with
  | .error e => .error e
  | .ok total => u128add total tx.value

/-- Model of `Transaction.CalculateMinGasExpected` with a nil payload argument (the
only way it is called from the sources): loads the payload and returns
`GasCountOfTxBase + payload.BaseGasCount` with the payload. -/
def CalculateMinGasExpected (env : PayloadEnv) (tx : Transaction) :
    Except CoreError (Nat × TxPayload) :=
  match GasCountOfTxBase tx with
  | .error e => .error e
  | .ok gasUsed =>
  match LoadPayload env tx with
  | .error e => .error e
  | .ok payload =>
  match u128add gasUsed payload.baseGasCount with
  | .error e => .error e
  | .ok total => .ok (total, payload)

/-- Model of `Transaction.checkBalance` (step 1 of `VerifyExecution`): load the
sender's account and require `balance ≥ MinBalanceRequired`. -/
def checkBalance (tx : Transaction) (ws : WorldState) :
    (Bool × Option CoreError) × WorldState :=
  let (fromAcc, ws) := GetOrCreateUserAccount tx.from_.address ws
  match MinBalanceRequired tx with
  | .error e => ((false, some e), ws)
  | .ok minBalanceRequired =>
    if fromAcc.balance < minBalanceRequired then
      ((false, some .insufficientBalance), ws)
    else ((false, none), ws)

/-- Model of `core.transfer`: fetch (or create) both accounts, subtract `value` from
the sender and credit the recipient. -/
def transfer (from_ to_ : List Nat) (value : Nat) (ws : WorldState) :
    (Bool × Option CoreError) × WorldState :=
  let (_, ws) := GetOrCreateUserAccount from_ ws
  let (_, ws) := GetOrCreateUserAccount to_ ws
  match SubBalance from_ value ws with
  | .error e => ((false, some e), ws)
  | .ok ws =>
    match AddBalance to_ value ws with
    | .error e => ((false, some e), ws)
    | .ok ws => ((false, none), ws)

/-- Model of `Transaction.recordGas`: record `gasPrice * gasCnt` against the sender
(checked multiplication). -/
def recordGasTx (tx : Transaction) (gasCnt : Nat) (ws : WorldState) :
    Except CoreError WorldState :=
  match u128mul tx.gasPrice gasCnt with
  | .error e => .error e
  | .ok gasCost => .ok (RecordGas tx.from_.address gasCost ws)

/-- Model of `Transaction.recordResultEvent`: record a
`TopicTransactionExecutionResult` event carrying the gas used and the
success/failure status. -/
def recordResultEvent (tx : Transaction) (gasUsed : Nat)
    (err : Option CoreError) (ws : WorldState) : WorldState :=
  let status := if err.isSome then TxExecutionFailed else TxExecutionSuccess
  RecordEvent tx.hash
    { topic := TopicTransactionExecutionResult,
      data := { hash := tx.hash, status := status, gasUsed := gasUsed,
                error := err } } ws

/-- Model of `core.VerifyExecution`: the deterministic execution pipeline.  Returns
the `(giveback, error)` pair and the world state it leaves behind.  The
branches that are reachable only through world-state I/O errors in Go are
absent, per the modelling conventions. -/
def VerifyExecution (env : PayloadEnv) (tx : Transaction) (ws : WorldState) :
    (Bool × Option CoreError) × WorldState :=
  -- step 1: balance precheck
  match checkBalance tx ws with
  | ((gb, some e), ws) => ((gb, some e), ws)
  | ((_, none), ws) =>
  -- step 2: base gas
  match GasCountOfTxBase tx with
  | .error e => ((false, some e), ws)
  | .ok gasUsed =>
  if tx.gasLimit < gasUsed then ((false, some .outOfGasLimit), ws)
  else
  -- step 3: payload parse
  match LoadPayload env tx with
  | .error payloadErr =>
    (match recordGasTx tx gasUsed ws with
     | .error e => ((false, some e), ws)
     | .ok ws => ((false, none), recordResultEvent tx gasUsed (some payloadErr) ws))
  | .ok payload =>
  -- step 4: payload base gas
  match u128add gasUsed payload.baseGasCount with
  | .error e => ((false, some e), ws)
  | .ok gasUsed =>
  if tx.gasLimit < gasUsed then
    (match recordGasTx tx tx.gasLimit ws with
     | .error e => ((false, some e), ws)
     | .ok ws => ((false, none), recordResultEvent tx tx.gasLimit (some .outOfGasLimit) ws))
  else
  -- step 5: value transfer
  match transfer tx.from_.address tx.to_.address tx.value ws with
  | ((gb, some e), ws) => ((gb, some e), ws)
  | ((_, none), ws) =>
  -- step 6: payload execution (reset on execution error)
  let (gasExecution, _result, exeErr, ws) := executePayload payload tx ws
  let ws := if exeErr.isSome then Reset ws else ws
  -- step 7: total gas
  match u128add gasUsed gasExecution with
  | .error e => ((false, some e), ws)
  | .ok allGas =>
  if tx.gasLimit < allGas then
    let ws := Reset ws
    (match recordGasTx tx tx.gasLimit ws with
     | .error e => ((false, some e), ws)
     | .ok ws => ((false, none), recordResultEvent tx tx.gasLimit (some .outOfGasLimit) ws))
  else
  -- step 8: commit accounting
  match recordGasTx tx allGas ws with
  | .error e => ((false, some e), ws)
  | .ok ws => ((false, none), recordResultEvent tx allGas exeErr ws)

/-- Model of `byteutils.FromInt64`: 8-byte big-endian two's-complement encoding. -/
def int64ToBytesBE (i : Int) : List Nat := natToBytesBE 8 (i.emod (2 ^ 64)).toNat

/-- Model of `Transaction.calHash`: SHA3-256 over
`from || to || value || nonce || timestamp || proto(data) || chainID ||
gasPrice || gasLimit` — the signature is excluded.  `hashFn` is the
external SHA3-256 hasher and `marshalFn` the external protobuf encoder of
`Data`. -/
def calHash (hashFn : List Nat → List Nat) (marshalFn : Data → List Nat)
    (tx : Transaction) : Except CoreError (List Nat) :=
  match toFixedSizeByteSlice tx.value with
  | .error e => .error e
  | .ok value =>
  let dataBytes := marshalFn tx.data
  match toFixedSizeByteSlice tx.gasPrice with
  | .error e => .error e
  | .ok gasPrice =>
  match toFixedSizeByteSlice tx.gasLimit with
  | .error e => .error e
  | .ok gasLimit =>
    .ok (hashFn (tx.from_.address ++ tx.to_.address ++ value ++
      natToBytesBE 8 tx.nonce ++ int64ToBytesBE tx.timestamp ++ dataBytes ++
      natToBytesBE 4 tx.chainID ++ gasPrice ++ gasLimit))

/-- A `keystore.Signature` signer: its algorithm identifier and its `Sign`
function over the canonical hash. -/
structure SignerModel where
  algorithm : Nat
  signFn : List Nat → Except CoreError (List Nat)

/-- Model of `Transaction.Sign`: recompute the canonical hash, sign it, and only
then store `hash`, `alg` and `sign`; a nil signer is rejected.  Returns the
(possibly updated) transaction and the error. -/
def Sign (hashFn : List Nat → List Nat) (marshalFn : Data → List Nat)
    (tx : Transaction) (signature : Option SignerModel) :
    Transaction × Option CoreError :=
  match signature with
  | none => (tx, some .nilArgument)
  | some s =>
    match calHash hashFn marshalFn tx with
    | .error e => (tx, some e)
    | .ok h =>
      match s.signFn h with
      | .error e => (tx, some e)
      | .ok sg => ({ tx with hash := h, alg := s.algorithm, sign := sg }, none)

/-- A block, reduced to the world state `Block.WorldState()` exposes: the
only part of a block `SimulateExecution` and `VerifyExecution` touch. -/
structure Block where
  worldState : WorldState

/-- Model of `checkBalanceForGasUsedAndValue`:
`balance ≥ gasPrice * gasUsed + value` on the (created-if-missing) sender
account, with checked arithmetic. -/
def checkBalanceForGasUsedAndValue (ws : WorldState) (address : List Nat)
    (value gasUsed gasPrice : Nat) : Except CoreError Bool × WorldState :=
  let (fromAcc, ws) := GetOrCreateUserAccount address ws
  match u128mul gasPrice gasUsed with
  | .error e => (.error e, ws)
  | .ok gasFee =>
    match u128add gasFee value with
    | .error e => (.error e, ws)
    | .ok balanceRequired =>
        (.ok (decide (¬ fromAcc.balance < balanceRequired)), ws)

/-- The tail of `SimulateExecution` shared by all payload kinds: the final
balance check, turning an insufficient balance into the execution error
slot. -/
def simulateBalanceCheck (gasUsed : Nat) (result : String)
    (exeErr : Option CoreError) (tx : Transaction) (ws : WorldState) :
    (Option Nat × String × Option CoreError × Option CoreError) ×
      Transaction × WorldState :=
  match checkBalanceForGasUsedAndValue ws tx.from_.address tx.value gasUsed
      tx.gasPrice with
  | (.error e, ws) => ((some gasUsed, result, exeErr, some e), tx, ws)
  | (.ok ok, ws) =>
      ((some gasUsed, result,
        if ok = false then some .insufficientBalance else exeErr, none),
       tx, ws)

/-- Model of `Transaction.SimulateExecution`: force `gasLimit := TransactionMaxGas`,
recompute the hash (no signature needed), compute the minimum expected gas,
and for contract payloads credit `value` to the recipient on the block's
world state and run the payload there.  Returns the
`(gasUsed, result, execError, ioError)` quadruple together with the
transaction and the world state it leaves behind. -/
def SimulateExecution (env : PayloadEnv) (hashFn : List Nat → List Nat)
    (marshalFn : Data → List Nat) (tx0 : Transaction) (block : Block) :
    (Option Nat × String × Option CoreError × Option CoreError) ×
      Transaction × WorldState :=
  let tx := { tx0 with gasLimit := TransactionMaxGas }
  match calHash hashFn marshalFn tx with
  | .error e => ((none, "", none, some e), tx, block.worldState)
  | .ok h =>
  let tx := { tx with hash := h }
  match CalculateMinGasExpected env tx with
  | .error e => ((none, "", none, some e), tx, block.worldState)
  | .ok (gasUsed, payload) =>
  let ws := block.worldState
  if tx.data.type = TxPayloadCallType ∨ tx.data.type = TxPayloadDeployType then
    let (_, ws) := GetOrCreateUserAccount tx.to_.address ws
    match AddBalance tx.to_.address tx.value ws with
    | .error e => ((none, "", none, some e), tx, ws)
    | .ok ws =>
      let (gasExecution, result, exeErr, ws) := executePayload payload tx ws
      match u128add gasUsed gasExecution with
      | .error e => ((none, "", none, some e), tx, ws)
      | .ok gasUsed =>
      if exeErr.isSome then ((some gasUsed, result, exeErr, none), tx, ws)
      else simulateBalanceCheck gasUsed result none tx ws
  else simulateBalanceCheck gasUsed "" none tx ws

/-- Model of `core.CheckContract`: load the contract account, require a birth place,
and scan the birth events, accepting as soon as a
`TopicTransactionExecutionResult` event with success status is seen. -/
def CheckContract (addr : Address) (ws : WorldState) :
    Except CoreError Account :=
  match GetContractAccount addr.address ws with
  | .error e => .error e
  | .ok contract =>
    if contract.birthPlace = [] then .error .contractCheckFailed
    else
      let birthEvents := FetchEvents contract.birthPlace ws
      let result := birthEvents.any (fun v =>
        v.topic == TopicTransactionExecutionResult &&
          v.data.status == TxExecutionSuccess)
      if result then .ok contract else .error .contractCheckFailed

/-- The specification's semantics for `CheckContract` ("must use the last
`TopicTransactionExecutionResult` event"), stated for comparison with the
code's first-success scan. -/
def CheckContractSpecSemantics (addr : Address) (ws : WorldState) :
    Except CoreError Account :=
  match GetContractAccount addr.address ws with
  | .error e => .error e
  | .ok contract =>
    if contract.birthPlace = [] then .error .contractCheckFailed
    else
      let resultEvents := (FetchEvents contract.birthPlace ws).filter
        (fun v => v.topic == TopicTransactionExecutionResult)
      match resultEvents.getLast? with
      | some v =>
          if v.data.status == TxExecutionSuccess then .ok contract
          else .error .contractCheckFailed
      | none => .error .contractCheckFailed

/-- Model of `core.CheckTransaction`: admission control on the nonce. -/
def CheckTransaction (tx : Transaction) (ws : WorldState) :
    (Bool × Option CoreError) × WorldState :=
  let (fromAcc, ws) := GetOrCreateUserAccount tx.from_.address ws
  let currentNonce := fromAcc.nonce
  if tx.nonce < currentNonce + 1 then ((false, some .smallTransactionNonce), ws)
  else if tx.nonce > currentNonce + 1 then ((true, some .largeTransactionNonce), ws)
  else ((false, none), ws)

end Nebulas

namespace NebNet

/-- A dispatcher subscriber (`net.Subscriber`), reduced to what
`Register`/`Deregister`/`PutMessage` read: its identity, its message type
and its duplicate-filter choice. -/
structure Subscriber where
  id : Nat
  messageType : String
  doFilter : Bool
deriving DecidableEq, Repr

/-- A network message, reduced to its type and its dedup fingerprint. -/
structure Message where
  messageType : String
  hash : List Nat
deriving DecidableEq, Repr

/-- Model of `net.Dispatcher`: subscriber map, bounded input channel (contents plus
capacity), dedup LRU (contents plus capacity) and per-type filter flags. -/
structure Dispatcher where
  subscribersMap : List (String × List Subscriber)
  receivedMessageCh : List Message
  inputChCapacity : Nat
  dispatchedMessages : List (List Nat)
  lruCapacity : Nat
  filters : List (String × Bool)
deriving DecidableEq, Repr

/-- Association-list lookup keyed by strings. -/
def lookupStr {α : Type} (k : String) (l : List (String × α)) : Option α :=
  (l.find? (fun p => p.1 = k)).map (·.2)

/-- Association-list update/insert keyed by strings. -/
def setStr {α : Type} (k : String) (v : α) :
    List (String × α) → List (String × α)
  | [] => [(k, v)]
  | p :: rest => if p.1 = k then (k, v) :: rest else p :: setStr k v rest

/-- Association-list deletion keyed by strings (Go `delete(map, k)`). -/
def eraseStr {α : Type} (k : String) (l : List (String × α)) :
    List (String × α) :=
  l.filter (fun p => decide ¬ (p.1 = k))

/-- Model of `NewDispatcher`: input channel of capacity 65536, dedup LRU of capacity
51200, empty filter map. -/
def NewDispatcher : Dispatcher :=
  { subscribersMap := [], receivedMessageCh := [], inputChCapacity := 65536,
    dispatchedMessages := [], lruCapacity := 51200, filters := [] }

/-- One iteration of `Dispatcher.Register`: store the subscriber under its
message type and set the type's filter flag to this subscriber's choice. -/
def registerOne (dp : Dispatcher) (v : Subscriber) : Dispatcher :=
  let mt := v.messageType
  let m := (lookupStr mt dp.subscribersMap).getD []
  let m := if v ∈ m then m else m ++ [v]
  { dp with subscribersMap := setStr mt m dp.subscribersMap,
            filters := setStr mt v.doFilter dp.filters }

/-- Model of `Dispatcher.Register` over its variadic argument list. -/
def Register (dp : Dispatcher) (subscribers : List Subscriber) : Dispatcher :=
  subscribers.foldl registerOne dp

/-- One iteration of `Dispatcher.Deregister`: when the type has a subscriber
map, remove the subscriber from it and delete the type's filter flag. -/
def deregisterOne (dp : Dispatcher) (v : Subscriber) : Dispatcher :=
  match lookupStr v.messageType dp.subscribersMap with
  | none => dp
  | some m =>
      { dp with
        subscribersMap := setStr v.messageType
          (m.filter (fun s => decide ¬ (s = v))) dp.subscribersMap,
        filters := eraseStr v.messageType dp.filters }

/-- Model of `Dispatcher.Deregister` over its variadic argument list. -/
def Deregister (dp : Dispatcher) (subscribers : List Subscriber) : Dispatcher :=
  subscribers.foldl deregisterOne dp

/-- Model of `lru.Cache.ContainsOrAdd` on the dedup LRU: newest entries at the
front, eviction beyond the capacity. -/
def lruContainsOrAdd (cap : Nat) (h : List Nat) (l : List (List Nat)) :
    Bool × List (List Nat) :=
  if h ∈ l then (true, l) else (false, (h :: l).take cap)

/-- Model of `Dispatcher.PutMessage`: when the type's filter flag is set, drop
messages whose fingerprint is already in the dedup LRU; otherwise append
the message to the input channel (blocking on a full channel is a wait, not
a drop). -/
def PutMessage (dp : Dispatcher) (msg : Message) : Dispatcher :=
  if (lookupStr msg.messageType dp.filters).getD false then
    match lruContainsOrAdd dp.lruCapacity msg.hash dp.dispatchedMessages with
    | (true, _) => dp
    | (false, l) =>
        { dp with dispatchedMessages := l,
                  receivedMessageCh := dp.receivedMessageCh ++ [msg] }
  else { dp with receivedMessageCh := dp.receivedMessageCh ++ [msg] }

end NebNet

namespace Nebulas

theorem lookupAcc_cons (q : List Nat × Account)
    (rest : List (List Nat × Account)) (a : List Nat) :
    lookupAcc a (q :: rest) =
      if q.1 = a then some q.2 else lookupAcc a rest := by
  by_cases h : q.1 = a <;> simp [lookupAcc, List.find?, h]

theorem lookupAcc_setAcc (a b : List Nat) (acc : Account)
    (l : List (List Nat × Account)) :
    lookupAcc a (setAcc b acc l) =
      if b = a then some acc else lookupAcc a l := by
  induction l with
  | nil =>
      by_cases h : b = a <;> simp [lookupAcc, setAcc, List.find?, h]
  | cons p rest ih =>
      simp only [setAcc]
      by_cases hpb : p.1 = b
      · rw [if_pos hpb, lookupAcc_cons, lookupAcc_cons]
        by_cases hba : b = a
        · simp [hba]
        · have hpa : ¬ p.1 = a := by rw [hpb]; exact hba
          simp [hba, hpa]
      · rw [if_neg hpb, lookupAcc_cons, lookupAcc_cons, ih]
        by_cases hpa : p.1 = a
        · have hba : ¬ b = a := fun h => hpb (by rw [hpa, h])
          simp [hpa, hba]
        · simp [hpa]

theorem GetOrCreateUserAccount_frame (addr : List Nat) (ws : WorldState) :
    ((GetOrCreateUserAccount addr ws).2).cur.gasRecords = ws.cur.gasRecords ∧
    ((GetOrCreateUserAccount addr ws).2).cur.events = ws.cur.events ∧
    ((GetOrCreateUserAccount addr ws).2).saved = ws.saved := by
  unfold GetOrCreateUserAccount
  cases lookupAcc addr ws.cur.accounts <;> simp

theorem GetOrCreateUserAccount_preserves (addr a : List Nat) (acc : Account)
    (ws : WorldState) (h : lookupAcc a ws.cur.accounts = some acc) :
    lookupAcc a ((GetOrCreateUserAccount addr ws).2).cur.accounts = some acc := by
  unfold GetOrCreateUserAccount
  cases hl : lookupAcc addr ws.cur.accounts with
  | some acc' => simpa using h
  | none =>
      simp only [lookupAcc_setAcc]
      have : ¬ addr = a := fun he => by rw [he, h] at hl; cases hl
      simp [this, h]

theorem checkBalance_snd (tx : Transaction) (ws : WorldState) :
    (checkBalance tx ws).2 = (GetOrCreateUserAccount tx.from_.address ws).2 := by
  unfold checkBalance
  rcases GetOrCreateUserAccount tx.from_.address ws with ⟨acc, ws1⟩
  cases MinBalanceRequired tx with
  | error e => rfl
  | ok m => by_cases h : acc.balance < m <;> simp [h]

theorem checkBalance_ok_mul (tx : Transaction) (ws ws1 : WorldState)
    (h : checkBalance tx ws = ((false, none), ws1)) :
    u128mul tx.gasPrice tx.gasLimit = .ok (tx.gasPrice * tx.gasLimit) := by
  unfold checkBalance at h
  rcases GetOrCreateUserAccount tx.from_.address ws with ⟨acc, ws2⟩
  cases hm : MinBalanceRequired tx with
  | error e => rw [hm] at h; simp at h
  | ok m =>
      unfold MinBalanceRequired at hm
      cases hmul : u128mul tx.gasPrice tx.gasLimit with
      | error e => rw [hmul] at hm; cases hm
      | ok p =>
          unfold u128mul at hmul
          by_cases hp : tx.gasPrice * tx.gasLimit < U128LIMIT
          · simp [hp] at hmul; simp [u128mul, hp, hmul]
          · simp [hp] at hmul

/-- A 24-byte test address. -/
def addrA : Address := ⟨List.replicate 24 1⟩

/-- A second 24-byte test address. -/
def addrB : Address := ⟨List.replicate 24 2⟩

/-- The empty world-state content. -/
def emptyCore : WSCore := { accounts := [], gasRecords := [], events := [] }

/-- A payload that parses, costs no base gas, and whose execution consumes
no gas and leaves the world state alone. -/
def payloadNoop : TxPayload :=
  { baseGasCount := 0, execute := fun _ ws => (0, "", none, ws) }

/-- A payload environment whose three parsers all succeed with
`payloadNoop`. -/
def envNoop : PayloadEnv :=
  { loadBinary := fun _ => .ok payloadNoop,
    loadDeploy := fun _ => .ok payloadNoop,
    loadCall := fun _ => .ok payloadNoop }

/-- Birth transaction hash for the `CheckContract` scenario. -/
def birthHashC2 : List Nat := [3, 1, 4]

/-- A contract account whose birth place holds two execution-result
events. -/
def contractC2 : Account := { balance := 0, nonce := 0, birthPlace := birthHashC2 }

/-- A successful execution-result event. -/
def successEventC2 : Event :=
  { topic := TopicTransactionExecutionResult,
    data := { hash := birthHashC2, status := TxExecutionSuccess,
              gasUsed := 20000, error := none } }

/-- A failed execution-result event. -/
def failEventC2 : Event :=
  { topic := TopicTransactionExecutionResult,
    data := { hash := birthHashC2, status := TxExecutionFailed,
              gasUsed := 0, error := some .outOfGasLimit } }

/-- World state where the contract's birth events are a success followed by
a failure, so the first and the last execution-result event disagree. -/
def wsC2 : WorldState :=
  { cur := { accounts := [(addrB.address, contractC2)], gasRecords := [],
             events := [(birthHashC2, successEventC2),
                        (birthHashC2, failEventC2)] },
    saved := emptyCore }

/-- C2: the claim (and the spec, and the code's own `TODO use the last
event` comment) require the decision to follow the last
`TopicTransactionExecutionResult` event, but `CheckContract` accepts on the
first successful one: on a birth-event list `[success, failure]` the code
returns the contract account while the last-event semantics rejects it. -/
theorem c2_first_vs_last_event :
    CheckContract addrB wsC2 = .ok contractC2 ∧
    CheckContractSpecSemantics addrB wsC2 = .error .contractCheckFailed ∧
    ((FetchEvents birthHashC2 wsC2).filter
        (fun v => v.topic == TopicTransactionExecutionResult)).getLast? =
      some failEventC2 ∧
    failEventC2.data.status = TxExecutionFailed := by
  refine ⟨rfl, rfl, rfl, rfl⟩

/-- C3 (counterexample): `NewTransaction` happily accepts a gas price above
`TransactionMaxGasPrice = 5·10^10`, so the claimed invariant
`gasPrice ≤ 5·10^10` does not hold for every constructor-produced
transaction. -/
theorem c3_counterexample :
    (NewTransaction 1 (some addrA) (some addrB) (some 0) 1
        TxPayloadBinaryType [] (some (TransactionMaxGasPrice + 1)) (some 1)
        0).toOption.map Transaction.gasPrice =
      some (TransactionMaxGasPrice + 1) ∧
    TransactionMaxGasPrice < TransactionMaxGasPrice + 1 :=
  ⟨rfl, by omega⟩

/-- C3 (amended): every transaction obtained from a successful
`NewTransaction` satisfies `gasPrice > 0`, `gasLimit > 0` and
`len(payload) ≤ 131072`, and every transaction obtained from a successful
`FromProto` satisfies `len(payload) ≤ 131072`; the `5·10^10` caps are not
enforced by either constructor, nor positivity by `FromProto`. -/
theorem c3_constructor_invariants :
    (∀ (chainID : Nat) (f t : Option Address) (v : Option Nat) (nonce : Nat)
        (pt : String) (pl : List Nat) (gp gl : Option Nat) (now : Int)
        (tx : Transaction),
        NewTransaction chainID f t v nonce pt pl gp gl now = .ok tx →
          0 < tx.gasPrice ∧ 0 < tx.gasLimit ∧
            tx.data.payload.length ≤ MaxDataPayLoadLength) ∧
    (∀ (msg : Option PbTransaction) (tx : Transaction),
        FromProto msg = .ok tx →
          tx.data.payload.length ≤ MaxDataPayLoadLength) := by
  constructor
  · intro chainID f t v nonce pt pl gp gl now tx h
    unfold NewTransaction at h
    repeat' split at h
    all_goals try cases h
    all_goals refine ⟨?_, ?_, ?_⟩ <;> dsimp only <;> omega
  · intro msg tx h
    unfold FromProto at h
    repeat' split at h
    all_goals try cases h
    all_goals dsimp only
    all_goals omega

/-- The transaction produced by the `NewTransaction` call of the C3
witness. -/
def txC3W : Transaction :=
  { hash := [], from_ := addrA, to_ := addrB, value := 0, nonce := 1,
    timestamp := 0, data := { type := TxPayloadBinaryType, payload := [] },
    chainID := 1, gasPrice := 1, gasLimit := 1, alg := 0, sign := [] }

/-- A concrete wire transaction accepted by `FromProto`. -/
def pbC3W : PbTransaction :=
  { hash := [1], from_ := addrA.address, to_ := addrB.address,
    value := natToBytesBE 16 5, nonce := 1, timestamp := 7,
    data := some { type := TxPayloadBinaryType, payload := [1, 2] },
    chainId := 100, gasPrice := natToBytesBE 16 1000000,
    gasLimit := natToBytesBE 16 20000, alg := 1, sign := [9] }

/-- The transaction `FromProto pbC3W` produces. -/
def txC3W2 : Transaction :=
  { hash := [1], from_ := addrA, to_ := addrB, value := 5, nonce := 1,
    timestamp := 7, data := { type := TxPayloadBinaryType, payload := [1, 2] },
    chainID := 100, gasPrice := 1000000, gasLimit := 20000, alg := 1,
    sign := [9] }

/-- Witness for C3 (amended) at concrete constructor calls. -/
theorem c3_constructor_invariants_witness :
    (0 < txC3W.gasPrice ∧ 0 < txC3W.gasLimit ∧
      txC3W.data.payload.length ≤ MaxDataPayLoadLength) ∧
    txC3W2.data.payload.length ≤ MaxDataPayLoadLength := by
  refine ⟨c3_constructor_invariants.1 1 (some addrA) (some addrB) (some 0) 1
      TxPayloadBinaryType [] (some 1) (some 1) 0 txC3W (by rfl),
    c3_constructor_invariants.2 (some pbC3W) txC3W2 (by rfl)⟩

/-- C5: when the balance precheck passes and the base gas `g0` already
exceeds `gasLimit`, `VerifyExecution` returns `(false, ErrOutOfGasLimit)`
with no gas and no event recorded — the transaction does not enter the
chain. -/
theorem c5_base_gas_check (env : PayloadEnv) (tx : Transaction)
    (ws ws1 : WorldState) (g0 : Nat)
    (hbal : checkBalance tx ws = ((false, none), ws1))
    (hg0 : GasCountOfTxBase tx = .ok g0)
    (hover : tx.gasLimit < g0) :
    VerifyExecution env tx ws = ((false, some .outOfGasLimit), ws1) ∧
    ws1.cur.gasRecords = ws.cur.gasRecords ∧
    ws1.cur.events = ws.cur.events := by
  have h2 : (GetOrCreateUserAccount tx.from_.address ws).2 = ws1 := by
    rw [← checkBalance_snd, hbal]
  have hV : VerifyExecution env tx ws = ((false, some .outOfGasLimit), ws1) := by
    unfold VerifyExecution
    rw [hbal]
    dsimp only
    rw [hg0]
    dsimp only
    rw [if_pos hover]
  rcases GetOrCreateUserAccount_frame tx.from_.address ws with ⟨hgas, hev, _⟩
  exact ⟨hV, by rw [← h2, hgas], by rw [← h2, hev]⟩

/-- World state for the C5 witness: the sender owns 5 wei. -/
def wsC5 : WorldState :=
  { cur := { accounts := [(addrA.address, { balance := 5, nonce := 0 })],
             gasRecords := [], events := [] },
    saved := emptyCore }

/-- Transaction for the C5 witness: `gasLimit = 1 < 20000 = g0`, while the
balance 5 covers `gasPrice·gasLimit + value = 1`. -/
def txC5 : Transaction :=
  { hash := [], from_ := addrA, to_ := addrB, value := 0, nonce := 1,
    timestamp := 0, data := { type := TxPayloadBinaryType, payload := [] },
    chainID := 1, gasPrice := 1, gasLimit := 1, alg := 1, sign := [] }

/-- Witness for C5 at a concrete transaction and world state. -/
theorem c5_base_gas_check_witness :
    VerifyExecution envNoop txC5 wsC5 = ((false, some .outOfGasLimit), wsC5) ∧
    wsC5.cur.gasRecords = wsC5.cur.gasRecords ∧
    wsC5.cur.events = wsC5.cur.events :=
  c5_base_gas_check envNoop txC5 wsC5 wsC5 20000 (by rfl) (by rfl) (by decide)

/-- C4: when every earlier check passes and the total gas
`allGas = g1 + gasExecution` exceeds `gasLimit`, `VerifyExecution` resets
the world state to the checkpoint taken before the value transfer, records
gas `gasLimit` against the sender at `tx.gasPrice`, records an
`OutOfGasLimit` failure event, and returns `(false, nil)`: the transaction
is accepted on-chain with failure status.  `hsaved` states that payload
execution does not move the caller's checkpoint. -/
theorem c4_total_gas_overrun (env : PayloadEnv) (tx : Transaction)
    (ws ws1 ws2 ws3 : WorldState) (g0 g1 gasExecution allGas : Nat)
    (payload : TxPayload) (result : String) (exeErr : Option CoreError)
    (hbal : checkBalance tx ws = ((false, none), ws1))
    (hg0 : GasCountOfTxBase tx = .ok g0)
    (hle0 : ¬ tx.gasLimit < g0)
    (hload : LoadPayload env tx = .ok payload)
    (hg1 : u128add g0 payload.baseGasCount = .ok g1)
    (hle1 : ¬ tx.gasLimit < g1)
    (htr : transfer tx.from_.address tx.to_.address tx.value ws1 =
      ((false, none), ws2))
    (hexe : executePayload payload tx ws2 = (gasExecution, result, exeErr, ws3))
    (hsaved : ws3.saved = ws.saved)
    (hall : u128add g1 gasExecution = .ok allGas)
    (hover : tx.gasLimit < allGas) :
    (VerifyExecution env tx ws).1 = (false, none) ∧
    (VerifyExecution env tx ws).2.cur.accounts = ws.saved.accounts ∧
    (VerifyExecution env tx ws).2.cur.gasRecords =
      ws.saved.gasRecords ++
        [(tx.from_.address, tx.gasPrice * tx.gasLimit)] ∧
    (VerifyExecution env tx ws).2.cur.events =
      ws.saved.events ++ [(tx.hash,
        { topic := TopicTransactionExecutionResult,
          data := { hash := tx.hash, status := TxExecutionFailed,
                    gasUsed := tx.gasLimit,
                    error := some .outOfGasLimit } })] := by
  have hmul := checkBalance_ok_mul tx ws ws1 hbal
  have hrg : ∀ w : WorldState, recordGasTx tx tx.gasLimit w =
      .ok (RecordGas tx.from_.address (tx.gasPrice * tx.gasLimit) w) := by
    intro w; unfold recordGasTx; rw [hmul]
  have hV : VerifyExecution env tx ws =
      ((false, none), recordResultEvent tx tx.gasLimit (some .outOfGasLimit)
        (RecordGas tx.from_.address (tx.gasPrice * tx.gasLimit)
          { cur := ws.saved, saved := ws.saved })) := by
    unfold VerifyExecution
    rw [hbal]
    dsimp only
    rw [hg0]
    dsimp only
    rw [if_neg hle0, hload]
    dsimp only
    rw [hg1]
    dsimp only
    rw [if_neg hle1, htr]
    dsimp only
    rw [hexe]
    dsimp only
    rw [hall]
    dsimp only
    rw [if_pos hover]
    rw [show Reset (if exeErr.isSome then Reset ws3 else ws3) =
        ({ cur := ws.saved, saved := ws.saved } : WorldState) from by
      cases exeErr <;> simp [Reset, hsaved]]
    rw [hrg]
  rw [hV]
  refine ⟨rfl, rfl, ?_, ?_⟩ <;>
    simp [recordResultEvent, RecordEvent, RecordGas]

/-- World-state content for the C4 witness: the sender owns 30000 wei. -/
def coreC4 : WSCore :=
  { accounts := [(addrA.address, { balance := 30000, nonce := 0 })],
    gasRecords := [], events := [] }

/-- World state for the C4 witness, checkpointed at its own content. -/
def wsC4 : WorldState := { cur := coreC4, saved := coreC4 }

/-- World state after the value transfer of the C4 witness: the recipient
account has been created. -/
def ws2C4 : WorldState :=
  { cur := { accounts := [(addrA.address, { balance := 30000, nonce := 0 }),
                          (addrB.address, { balance := 0, nonce := 0 })],
             gasRecords := [], events := [] },
    saved := coreC4 }

/-- A payload whose execution consumes 10 units of gas and leaves the world
state alone. -/
def payloadTen : TxPayload :=
  { baseGasCount := 0, execute := fun _ ws => (10, "", none, ws) }

/-- Payload environment for the C4 witness. -/
def envC4 : PayloadEnv :=
  { loadBinary := fun _ => .ok payloadTen,
    loadDeploy := fun _ => .ok payloadTen,
    loadCall := fun _ => .ok payloadTen }

/-- Transaction for the C4 witness: `gasLimit = 20005` sits between the
base gas 20000 and the total gas 20010. -/
def txC4 : Transaction :=
  { hash := [8], from_ := addrA, to_ := addrB, value := 0, nonce := 1,
    timestamp := 0, data := { type := TxPayloadBinaryType, payload := [] },
    chainID := 1, gasPrice := 1, gasLimit := 20005, alg := 1, sign := [] }

/-- Witness for C4 at a concrete out-of-gas execution. -/
theorem c4_total_gas_overrun_witness :
    (VerifyExecution envC4 txC4 wsC4).1 = (false, none) ∧
    (VerifyExecution envC4 txC4 wsC4).2.cur.accounts = wsC4.saved.accounts ∧
    (VerifyExecution envC4 txC4 wsC4).2.cur.gasRecords =
      wsC4.saved.gasRecords ++
        [(txC4.from_.address, txC4.gasPrice * txC4.gasLimit)] ∧
    (VerifyExecution envC4 txC4 wsC4).2.cur.events =
      wsC4.saved.events ++ [(txC4.hash,
        { topic := TopicTransactionExecutionResult,
          data := { hash := txC4.hash, status := TxExecutionFailed,
                    gasUsed := txC4.gasLimit,
                    error := some .outOfGasLimit } })] :=
  c4_total_gas_overrun envC4 txC4 wsC4 wsC4 ws2C4 ws2C4 20000 20000 10 20010
    payloadTen "" none (by rfl) (by rfl) (by decide) (by rfl) (by rfl)
    (by decide) (by rfl) (by rfl) (by rfl) (by rfl) (by decide)

/-- C6: for every transaction and world state (no I/O errors in the model),
with `c` the sender's current nonce, `CheckTransaction` returns
`(false, nil)` iff `tx.nonce = c + 1`, `(false, ErrSmallTransactionNonce)`
iff `tx.nonce < c + 1`, and `(true, ErrLargeTransactionNonce)` iff
`tx.nonce > c + 1`. -/
theorem c6_nonce_trichotomy (tx : Transaction) (ws : WorldState) :
    ((CheckTransaction tx ws).1 = (false, none) ↔
       tx.nonce = ((GetOrCreateUserAccount tx.from_.address ws).1).nonce + 1) ∧
    ((CheckTransaction tx ws).1 = (false, some .smallTransactionNonce) ↔
       tx.nonce < ((GetOrCreateUserAccount tx.from_.address ws).1).nonce + 1) ∧
    ((CheckTransaction tx ws).1 = (true, some .largeTransactionNonce) ↔
       tx.nonce > ((GetOrCreateUserAccount tx.from_.address ws).1).nonce + 1) := by
  unfold CheckTransaction
  rcases hG : GetOrCreateUserAccount tx.from_.address ws with ⟨acc, ws1⟩
  dsimp only
  rcases Nat.lt_trichotomy tx.nonce (acc.nonce + 1) with h | h | h
  · rw [if_pos h]
    refine ⟨?_, ?_, ?_⟩ <;> simp <;> omega
  · rw [if_neg (by omega), if_neg (by omega)]
    refine ⟨?_, ?_, ?_⟩ <;> simp <;> omega
  · rw [if_neg (by omega), if_pos h]
    refine ⟨?_, ?_, ?_⟩ <;> simp <;> omega

/-- A protobuf `Data` encoder used in concrete scenarios. -/
def marshalNoop : Data → List Nat := fun d => d.payload

/-- A signer whose `Sign` echoes the hash back as the signature. -/
def signerOk : SignerModel := { algorithm := 1, signFn := fun h => .ok h }

/-- A transaction whose canonical hash cannot be computed: its value is not
a representable `Uint128`, so serialization fails. -/
def txC9bad : Transaction := { txC5 with value := U128LIMIT }

/-- The canonical hash of `txC5` under `id`/`marshalNoop`. -/
def hC9 : List Nat := (calHash id marshalNoop txC5).toOption.getD []

/-- C9: `Transaction.Sign` is atomic on error — a nil signer yields
`ErrNilArgument` with no mutation, any hashing or signing error is returned
with `hash`, `alg`, `sign` untouched, and the three fields are assigned
exactly when both the hash computation and the signing succeed. -/
theorem c9_sign_atomicity (hashFn : List Nat → List Nat)
    (marshalFn : Data → List Nat) (tx : Transaction)
    (signature : Option SignerModel) :
    Sign hashFn marshalFn tx none = (tx, some .nilArgument) ∧
    (∀ e : CoreError, (Sign hashFn marshalFn tx signature).2 = some e →
       (Sign hashFn marshalFn tx signature).1 = tx) ∧
    (∀ (s : SignerModel) (h sg : List Nat), signature = some s →
       calHash hashFn marshalFn tx = .ok h → s.signFn h = .ok sg →
         Sign hashFn marshalFn tx signature =
           ({ tx with hash := h, alg := s.algorithm, sign := sg }, none)) := by
  refine ⟨rfl, ?_, ?_⟩
  · intro e he
    cases signature with
    | none => rfl
    | some s =>
      cases hc : calHash hashFn marshalFn tx with
      | error e2 =>
          show (Sign hashFn marshalFn tx (some s)).1 = tx
          unfold Sign
          rw [hc]
      | ok h =>
        cases hs : s.signFn h with
        | error e2 =>
            show (Sign hashFn marshalFn tx (some s)).1 = tx
            unfold Sign
            rw [hc]
            dsimp only
            rw [hs]
        | ok sg =>
            exfalso
            have hS : Sign hashFn marshalFn tx (some s) =
                ({ tx with hash := h, alg := s.algorithm, sign := sg },
                 none) := by
              unfold Sign
              rw [hc]
              dsimp only
              rw [hs]
            rw [hS] at he
            cases he
  · intro s h sg hsig hcal hsgn
    subst hsig
    unfold Sign
    rw [hcal]
    dsimp only
    rw [hsgn]

/-- Witness for C9: the nil-signer case, a failing hash computation leaving
the transaction untouched, and a successful signing assigning the three
fields. -/
theorem c9_sign_atomicity_witness :
    Sign id marshalNoop txC5 none = (txC5, some .nilArgument) ∧
    (Sign id marshalNoop txC9bad (some signerOk)).1 = txC9bad ∧
    Sign id marshalNoop txC5 (some signerOk) =
      ({ txC5 with hash := hC9, alg := signerOk.algorithm, sign := hC9 },
       none) := by
  refine ⟨(c9_sign_atomicity id marshalNoop txC5 none).1, ?_, ?_⟩
  · exact (c9_sign_atomicity id marshalNoop txC9bad (some signerOk)).2.1
      .overflow (by rfl)
  · exact (c9_sign_atomicity id marshalNoop txC5 (some signerOk)).2.2
      signerOk hC9 hC9 rfl (by rfl) (by rfl)

/-- C7: for a well-formed transaction (parsable addresses, representable
`Uint128` fields, payload within the length bound, `alg` a `uint8`),
`FromProto (ToProto tx)` succeeds and reproduces the transaction byte-wise
on every field. -/
theorem c7_proto_roundtrip (tx : Transaction)
    (hfrom : tx.from_.address.length = AddressLength)
    (hto : tx.to_.address.length = AddressLength)
    (hv : tx.value < U128LIMIT) (hgp : tx.gasPrice < U128LIMIT)
    (hgl : tx.gasLimit < U128LIMIT)
    (hpl : tx.data.payload.length ≤ MaxDataPayLoadLength)
    (halg : tx.alg < 256) :
    (ToProto tx).bind (fun pb => FromProto (some pb)) = .ok tx := by
  unfold ToProto toFixedSizeByteSlice
  rw [if_pos hv, if_pos hgp, if_pos hgl]
  dsimp only [Except.bind]
  unfold FromProto AddressParseFromBytes NewUint128FromFixedSizeByteSlice
  dsimp only
  rw [if_pos hfrom]
  dsimp only
  rw [if_pos hto]
  dsimp only
  rw [if_pos (natToBytesBE_length 16 tx.value)]
  dsimp only
  rw [if_neg (by omega : ¬ tx.data.payload.length > MaxDataPayLoadLength)]
  rw [if_pos (natToBytesBE_length 16 tx.gasPrice)]
  dsimp only
  rw [if_pos (natToBytesBE_length 16 tx.gasLimit)]
  dsimp only
  rw [bytesToNatBE_natToBytesBE_16 _ hv, bytesToNatBE_natToBytesBE_16 _ hgp,
    bytesToNatBE_natToBytesBE_16 _ hgl, Nat.mod_eq_of_lt halg]

theorem checkBalanceForGasUsedAndValue_snd (ws : WorldState)
    (addr : List Nat) (value g gp : Nat) :
    (checkBalanceForGasUsedAndValue ws addr value g gp).2 =
      (GetOrCreateUserAccount addr ws).2 := by
  unfold checkBalanceForGasUsedAndValue
  rcases GetOrCreateUserAccount addr ws with ⟨acc, ws1⟩
  dsimp only
  cases u128mul gp g with
  | error e => rfl
  | ok fee =>
    dsimp only
    cases u128add fee value with
    | error e => rfl
    | ok req => rfl

theorem simulateBalanceCheck_tx (g : Nat) (r : String) (e : Option CoreError)
    (tx : Transaction) (ws : WorldState) :
    (simulateBalanceCheck g r e tx ws).2.1 = tx := by
  unfold simulateBalanceCheck
  rcases h : checkBalanceForGasUsedAndValue ws tx.from_.address tx.value g
    tx.gasPrice with ⟨r', ws'⟩
  cases r' <;> rfl

theorem simulateBalanceCheck_snd (g : Nat) (r : String) (e : Option CoreError)
    (tx : Transaction) (ws : WorldState) :
    (simulateBalanceCheck g r e tx ws).2.2 =
      (GetOrCreateUserAccount tx.from_.address ws).2 := by
  unfold simulateBalanceCheck
  rcases h : checkBalanceForGasUsedAndValue ws tx.from_.address tx.value g
    tx.gasPrice with ⟨r', ws'⟩
  have h2 := checkBalanceForGasUsedAndValue_snd ws tx.from_.address tx.value g
    tx.gasPrice
  rw [h] at h2
  cases r' <;> simpa using h2

theorem simulateBalanceCheck_congr (g : Nat) (r : String)
    (e : Option CoreError) (ws : WorldState) (tx1 tx2 : Transaction)
    (h1 : tx1.from_ = tx2.from_) (h2 : tx1.value = tx2.value)
    (h3 : tx1.gasPrice = tx2.gasPrice) :
    (simulateBalanceCheck g r e tx1 ws).1 =
      (simulateBalanceCheck g r e tx2 ws).1 ∧
    (simulateBalanceCheck g r e tx1 ws).2.2 =
      (simulateBalanceCheck g r e tx2 ws).2.2 := by
  unfold simulateBalanceCheck
  rw [h1, h2, h3]
  rcases h : checkBalanceForGasUsedAndValue ws tx2.from_.address tx2.value g
    tx2.gasPrice with ⟨r', ws'⟩
  cases r' <;> exact ⟨rfl, rfl⟩

/-- Transaction for the C1 counterexample: a call-type transaction carrying
one wei of value. -/
def txC1 : Transaction :=
  { hash := [], from_ := addrA, to_ := addrB, value := 1, nonce := 1,
    timestamp := 0, data := { type := TxPayloadCallType, payload := [] },
    chainID := 1, gasPrice := 1, gasLimit := 200000, alg := 1, sign := [] }

/-- A block over the empty world state. -/
def blockC1 : Block :=
  { worldState := { cur := emptyCore, saved := emptyCore } }

/-- A block whose world state holds the sender's account. -/
def blockC1b : Block := { worldState := wsC5 }

/-- C1 (counterexample): simulating a call-type transaction credits its
value to the recipient on the block's world state and never reverts it —
the world state is mutated by the simulation, refuting the claim's
"no account balance or other world-state field is mutated" part. -/
theorem c1_counterexample :
    lookupAcc addrB.address blockC1.worldState.cur.accounts = none ∧
    lookupAcc addrB.address
        ((SimulateExecution envNoop id marshalNoop txC1
          blockC1).2.2).cur.accounts =
      some { balance := 1, nonce := 0 } := ⟨rfl, rfl⟩

theorem calHash_congr (hashFn : List Nat → List Nat)
    (marshalFn : Data → List Nat) (tx1 tx2 : Transaction)
    (h1 : tx1.from_ = tx2.from_) (h2 : tx1.to_ = tx2.to_)
    (h3 : tx1.value = tx2.value) (h4 : tx1.nonce = tx2.nonce)
    (h5 : tx1.timestamp = tx2.timestamp) (h6 : tx1.data = tx2.data)
    (h7 : tx1.chainID = tx2.chainID) (h8 : tx1.gasPrice = tx2.gasPrice)
    (h9 : tx1.gasLimit = tx2.gasLimit) :
    calHash hashFn marshalFn tx1 = calHash hashFn marshalFn tx2 := by
  unfold calHash
  rw [h1, h2, h3, h4, h5, h6, h7, h8, h9]

theorem CalculateMinGasExpected_congr_data (env : PayloadEnv)
    (tx1 tx2 : Transaction) (h : tx1.data = tx2.data) :
    CalculateMinGasExpected env tx1 = CalculateMinGasExpected env tx2 := by
  unfold CalculateMinGasExpected GasCountOfTxBase LoadPayload
    Transaction.DataLen
  rw [h]

theorem SimulateExecution_noncontract (env : PayloadEnv)
    (hashFn : List Nat → List Nat) (marshalFn : Data → List Nat)
    (tx : Transaction) (b : Block)
    (hcall : tx.data.type ≠ TxPayloadCallType)
    (hdeploy : tx.data.type ≠ TxPayloadDeployType) :
    SimulateExecution env hashFn marshalFn tx b =
      (match calHash hashFn marshalFn
          { tx with gasLimit := TransactionMaxGas } with
       | .error e => ((none, "", none, some e),
           { tx with gasLimit := TransactionMaxGas }, b.worldState)
       | .ok h =>
         match CalculateMinGasExpected env
             { tx with hash := h, gasLimit := TransactionMaxGas } with
         | .error e => ((none, "", none, some e),
             { tx with hash := h, gasLimit := TransactionMaxGas },
             b.worldState)
         | .ok (gasUsed, _payload) =>
             simulateBalanceCheck gasUsed "" none
               { tx with hash := h, gasLimit := TransactionMaxGas }
               b.worldState) := by
  unfold SimulateExecution
  dsimp only
  cases hc : calHash hashFn marshalFn
      { tx with gasLimit := TransactionMaxGas } with
  | error e => rfl
  | ok h =>
    dsimp only
    cases hm : CalculateMinGasExpected env
        { tx with hash := h, gasLimit := TransactionMaxGas } with
    | error e => rfl
    | ok p =>
      obtain ⟨gasUsed, payload⟩ := p
      dsimp only
      rw [if_neg (fun hor =>
        hor.elim (fun h1 => hcall h1) (fun h2 => hdeploy h2))]

/-- C1 (amended): `SimulateExecution` forces `gasLimit := TransactionMaxGas`
on the executed transaction, recomputes the hash without requiring a
signature (for non-contract payloads the outcome and the final world state
do not depend on `sign`/`alg` at all), and returns the
`(gasUsed, result, execError, ioError)` quadruple; however it runs directly
on the block's world state: for deploy/call payloads it credits `tx.value`
to the recipient without reverting (the counterexample), while for
non-contract payloads no stored account changes and no gas or event is
recorded — the only possible world-state change is the creation of the
sender's account by the final balance check. -/
theorem c1_amended :
    (∀ (env : PayloadEnv) (hashFn : List Nat → List Nat)
        (marshalFn : Data → List Nat) (tx : Transaction) (b : Block),
       ((SimulateExecution env hashFn marshalFn tx b).2.1).gasLimit =
         TransactionMaxGas) ∧
    (∀ (env : PayloadEnv) (hashFn : List Nat → List Nat)
        (marshalFn : Data → List Nat) (tx : Transaction) (b : Block)
        (s : List Nat) (a : Nat),
       tx.data.type ≠ TxPayloadCallType → tx.data.type ≠ TxPayloadDeployType →
         (SimulateExecution env hashFn marshalFn
             { tx with sign := s, alg := a } b).1 =
           (SimulateExecution env hashFn marshalFn tx b).1 ∧
         (SimulateExecution env hashFn marshalFn
             { tx with sign := s, alg := a } b).2.2 =
           (SimulateExecution env hashFn marshalFn tx b).2.2) ∧
    (∀ (env : PayloadEnv) (hashFn : List Nat → List Nat)
        (marshalFn : Data → List Nat) (tx : Transaction) (b : Block),
       tx.data.type ≠ TxPayloadCallType → tx.data.type ≠ TxPayloadDeployType →
         ∀ (a : List Nat) (acc : Account),
           lookupAcc a b.worldState.cur.accounts = some acc →
             lookupAcc a ((SimulateExecution env hashFn marshalFn tx
                 b).2.2).cur.accounts = some acc) ∧
    (∀ (env : PayloadEnv) (hashFn : List Nat → List Nat)
        (marshalFn : Data → List Nat) (tx : Transaction) (b : Block),
       tx.data.type ≠ TxPayloadCallType → tx.data.type ≠ TxPayloadDeployType →
         ((SimulateExecution env hashFn marshalFn tx b).2.2).cur.gasRecords =
           b.worldState.cur.gasRecords ∧
         ((SimulateExecution env hashFn marshalFn tx b).2.2).cur.events =
           b.worldState.cur.events) := by
  refine ⟨?_, ?_, ?_, ?_⟩
  · intro env hashFn marshalFn tx b
    unfold SimulateExecution
    dsimp only
    cases hc : calHash hashFn marshalFn
        { tx with gasLimit := TransactionMaxGas } with
    | error e => rfl
    | ok h =>
      dsimp only
      cases hm : CalculateMinGasExpected env
          { tx with hash := h, gasLimit := TransactionMaxGas } with
      | error e => rfl
      | ok p =>
        obtain ⟨gasUsed, payload⟩ := p
        dsimp only
        split
        · cases hA : AddBalance tx.to_.address tx.value
              (GetOrCreateUserAccount tx.to_.address b.worldState).2 with
          | error e => rfl
          | ok ws1 =>
            dsimp only
            cases hU : u128add gasUsed (executePayload payload
                { tx with hash := h, gasLimit := TransactionMaxGas } ws1).1 with
            | error e => rfl
            | ok g2 =>
              dsimp only
              split
              · rfl
              · rw [simulateBalanceCheck_tx]
        · rw [simulateBalanceCheck_tx]
  · intro env hashFn marshalFn tx b s a hcall hdeploy
    rw [SimulateExecution_noncontract env hashFn marshalFn
        { tx with sign := s, alg := a } b hcall hdeploy,
      SimulateExecution_noncontract env hashFn marshalFn tx b hcall hdeploy]
    rw [calHash_congr hashFn marshalFn
        { tx with gasLimit := TransactionMaxGas, alg := a, sign := s }
        { tx with gasLimit := TransactionMaxGas }
        rfl rfl rfl rfl rfl rfl rfl rfl rfl]
    cases hc : calHash hashFn marshalFn
        { tx with gasLimit := TransactionMaxGas } with
    | error e => exact ⟨rfl, rfl⟩
    | ok h =>
      dsimp only
      rw [CalculateMinGasExpected_congr_data env
          { tx with hash := h, gasLimit := TransactionMaxGas,
                    alg := a, sign := s }
          { tx with hash := h, gasLimit := TransactionMaxGas } rfl]
      cases hm : CalculateMinGasExpected env
          { tx with hash := h, gasLimit := TransactionMaxGas } with
      | error e => exact ⟨rfl, rfl⟩
      | ok p =>
        obtain ⟨gasUsed, payload⟩ := p
        dsimp only
        exact simulateBalanceCheck_congr _ _ _ _ _ _ rfl rfl rfl
  · intro env hashFn marshalFn tx b hcall hdeploy a acc hl
    rw [SimulateExecution_noncontract env hashFn marshalFn tx b hcall hdeploy]
    cases hc : calHash hashFn marshalFn
        { tx with gasLimit := TransactionMaxGas } with
    | error e => exact hl
    | ok h =>
      dsimp only
      cases hm : CalculateMinGasExpected env
          { tx with hash := h, gasLimit := TransactionMaxGas } with
      | error e => exact hl
      | ok p =>
        obtain ⟨gasUsed, payload⟩ := p
        dsimp only
        rw [simulateBalanceCheck_snd]
        exact GetOrCreateUserAccount_preserves _ _ _ _ hl
  · intro env hashFn marshalFn tx b hcall hdeploy
    rw [SimulateExecution_noncontract env hashFn marshalFn tx b hcall hdeploy]
    cases hc : calHash hashFn marshalFn
        { tx with gasLimit := TransactionMaxGas } with
    | error e => exact ⟨rfl, rfl⟩
    | ok h =>
      dsimp only
      cases hm : CalculateMinGasExpected env
          { tx with hash := h, gasLimit := TransactionMaxGas } with
      | error e => exact ⟨rfl, rfl⟩
      | ok p =>
        obtain ⟨gasUsed, payload⟩ := p
        dsimp only
        rw [simulateBalanceCheck_snd]
        exact ⟨(GetOrCreateUserAccount_frame _ _).1,
          (GetOrCreateUserAccount_frame _ _).2.1⟩

/-- Witness for C1 (amended) at a concrete binary-payload simulation. -/
theorem c1_amended_witness :
    ((SimulateExecution envNoop id marshalNoop txC5 blockC1b).2.1).gasLimit =
      TransactionMaxGas ∧
    (SimulateExecution envNoop id marshalNoop
        { txC5 with sign := [9], alg := 2 } blockC1b).1 =
      (SimulateExecution envNoop id marshalNoop txC5 blockC1b).1 ∧
    lookupAcc addrA.address
        ((SimulateExecution envNoop id marshalNoop txC5
          blockC1b).2.2).cur.accounts = some { balance := 5, nonce := 0 } ∧
    ((SimulateExecution envNoop id marshalNoop txC5
        blockC1b).2.2).cur.gasRecords =
      blockC1b.worldState.cur.gasRecords := by
  refine ⟨c1_amended.1 envNoop id marshalNoop txC5 blockC1b,
    (c1_amended.2.1 envNoop id marshalNoop txC5 blockC1b [9] 2 (by decide)
      (by decide)).1,
    c1_amended.2.2.1 envNoop id marshalNoop txC5 blockC1b (by decide)
      (by decide) addrA.address { balance := 5, nonce := 0 } (by rfl),
    (c1_amended.2.2.2 envNoop id marshalNoop txC5 blockC1b (by decide)
      (by decide)).1⟩

/-- Concrete well-formed transaction for the C7 witness. -/
def txC7W : Transaction :=
  { hash := [1, 2], from_ := addrA, to_ := addrB, value := 5, nonce := 3,
    timestamp := -4, data := { type := TxPayloadBinaryType, payload := [7] },
    chainID := 100, gasPrice := 1000000, gasLimit := 20000, alg := 1,
    sign := [9] }

/-- Witness for C7 at a concrete transaction. -/
theorem c7_proto_roundtrip_witness :
    (ToProto txC7W).bind (fun pb => FromProto (some pb)) = .ok txC7W :=
  c7_proto_roundtrip txC7W (by rfl) (by rfl) (by decide) (by decide)
    (by decide) (by decide) (by decide)

end Nebulas

namespace NebNet

theorem lookupStr_setStr_self {α : Type} (k : String) (v : α)
    (l : List (String × α)) : lookupStr k (setStr k v l) = some v := by
  induction l with
  | nil => simp [lookupStr, setStr, List.find?]
  | cons p rest ih =>
      by_cases h : p.1 = k
      · simp [setStr, h, lookupStr, List.find?]
      · simp only [setStr, if_neg h]
        simpa [lookupStr, List.find?, h] using ih

theorem lookupStr_eraseStr_self {α : Type} (k : String)
    (l : List (String × α)) : lookupStr k (eraseStr k l) = none := by
  have hnone : List.find? (fun p => decide (p.1 = k))
      (l.filter (fun p => decide ¬ (p.1 = k))) = none := by
    rw [List.find?_eq_none]
    intro x hx
    have hmem := (List.mem_filter.mp hx).2
    simpa using hmem
  simp [lookupStr, eraseStr, hnone]

/-- C8: `PutMessage` drops a message at ingress iff the per-type filter flag
is set and the fingerprint is already in the dedup LRU; in every other case
the message is appended to the input channel exactly once.  The dispatcher
is created with an input channel of capacity 65536 and a dedup LRU of
capacity 51200. -/
theorem c8_put_message_dedup :
    NewDispatcher.inputChCapacity = 65536 ∧
    NewDispatcher.lruCapacity = 51200 ∧
    ∀ (dp : Dispatcher) (msg : Message),
      (PutMessage dp msg).receivedMessageCh =
        (if ((lookupStr msg.messageType dp.filters).getD false) = true ∧
            msg.hash ∈ dp.dispatchedMessages
         then dp.receivedMessageCh
         else dp.receivedMessageCh ++ [msg]) := by
  refine ⟨rfl, rfl, fun dp msg => ?_⟩
  unfold PutMessage lruContainsOrAdd
  by_cases hf : (lookupStr msg.messageType dp.filters).getD false = true
  · by_cases hm : msg.hash ∈ dp.dispatchedMessages <;> simp [hf, hm]
  · simp [hf]

/-- C10: deregistering a subscriber for a registered type deletes the
type's filter flag unconditionally — remaining subscribers of that type
lose duplicate filtering (messages of the type are then always enqueued) —
while `Register` leaves the flag at the last registering subscriber's
`DoFilter()` value. -/
theorem c10_filter_flag_lifecycle :
    (∀ (dp : Dispatcher) (s : Subscriber),
       (lookupStr s.messageType dp.subscribersMap).isSome = true →
         lookupStr s.messageType (Deregister dp [s]).filters = none ∧
         (∀ s' : Subscriber,
            s' ∈ (lookupStr s.messageType
                (Deregister dp [s]).subscribersMap).getD [] ↔
              s' ∈ (lookupStr s.messageType dp.subscribersMap).getD [] ∧
                s' ≠ s) ∧
         (∀ msg : Message, msg.messageType = s.messageType →
            (PutMessage (Deregister dp [s]) msg).receivedMessageCh =
              (Deregister dp [s]).receivedMessageCh ++ [msg])) ∧
    (∀ (dp : Dispatcher) (s1 s2 : Subscriber),
       lookupStr s2.messageType (Register dp [s1, s2]).filters =
         some s2.doFilter) := by
  constructor
  · intro dp s hsome
    have hd : Deregister dp [s] = deregisterOne dp s := rfl
    rw [hd]
    unfold deregisterOne
    cases hl : lookupStr s.messageType dp.subscribersMap with
    | none => rw [hl] at hsome; cases hsome
    | some m =>
        refine ⟨?_, ?_, ?_⟩
        · exact lookupStr_eraseStr_self _ _
        · intro s'
          simp only [lookupStr_setStr_self, Option.getD_some, hl,
            List.mem_filter, decide_not]
          simp
        · intro msg hmsg
          unfold PutMessage
          simp [hmsg, lookupStr_eraseStr_self]
  · intro dp s1 s2
    have hr : Register dp [s1, s2] = registerOne (registerOne dp s1) s2 := rfl
    rw [hr]
    unfold registerOne
    simp [lookupStr_setStr_self]

/-- First subscriber of message type `t` for the C10 witness. -/
def subA : Subscriber := { id := 1, messageType := "t", doFilter := true }

/-- Second subscriber of message type `t` for the C10 witness. -/
def subB : Subscriber := { id := 2, messageType := "t", doFilter := true }

/-- Dispatcher with both subscribers registered. -/
def dpC10 : Dispatcher := Register NewDispatcher [subA, subB]

/-- Message of type `t` for the C10 witness. -/
def msgC10 : Message := { messageType := "t", hash := [5] }

/-- Witness for C10: deregistering `subA` deletes the filter flag of type
`t`, keeps `subB` registered, and a message of type `t` is then always
enqueued; registration keeps the last writer's filter choice. -/
theorem c10_filter_flag_lifecycle_witness :
    lookupStr subA.messageType (Deregister dpC10 [subA]).filters = none ∧
    (subB ∈ (lookupStr subA.messageType
        (Deregister dpC10 [subA]).subscribersMap).getD [] ↔
      subB ∈ (lookupStr subA.messageType dpC10.subscribersMap).getD [] ∧
        subB ≠ subA) ∧
    (PutMessage (Deregister dpC10 [subA]) msgC10).receivedMessageCh =
      (Deregister dpC10 [subA]).receivedMessageCh ++ [msgC10] ∧
    lookupStr subB.messageType (Register NewDispatcher [subA, subB]).filters =
      some subB.doFilter := by
  obtain ⟨h1, h2, h3⟩ := c10_filter_flag_lifecycle.1 dpC10 subA (by rfl)
  exact ⟨h1, h2 subB, h3 msgC10 (by rfl),
    c10_filter_flag_lifecycle.2 NewDispatcher subA subB⟩

end NebNet
